import Mathlib

/-!
Shallow embedding of the `clickhouse-mcp-server` repository (TypeScript):
`src/clickhouse-service.ts` (environment validation and the `ClickHouseService`
class) and `src/index.ts` (the MCP resource and tool handlers).

The ClickHouse database and its client library are external to the repository;
they are modelled as an abstract `Backend` of typed response channels, one per
query template the service emits, mirroring the typed `result.json<T[]>()`
decodings in the source.  JavaScript string primitives used by the source
(`trim`, `toLowerCase`, `includes`) are modelled over `List Char`.
-/

namespace ClickHouseMCP

/-- Model of JavaScript `String.prototype.toLowerCase` (the six guard keywords
are ASCII, for which per-character lowering is exact). -/
def jsToLowerCase (s : String) : String :=
  ⟨s.data.map Char.toLower⟩

/-- Model of JavaScript `String.prototype.trim`: drop whitespace from both
ends. -/
def jsTrim (s : String) : String :=
  ⟨(s.data.dropWhile Char.isWhitespace).rdropWhile Char.isWhitespace⟩

/-- Model of JavaScript `String.prototype.includes`: substring containment,
i.e. the pattern's characters occur contiguously inside the string. -/
def jsIncludes (s pat : String) : Bool :=
  decide (pat.data <:+: s.data)

/-- Column descriptor decoded from `DESCRIBE TABLE` (interface `ColumnInfo` in
`clickhouse-service.ts`). -/
structure ColumnInfo where
  name : String
  type : String
deriving DecidableEq, Repr

/-- Row decoded from `SHOW TABLES` (interface `TableRow` in
`clickhouse-service.ts`). -/
structure TableRow where
  name : String
deriving DecidableEq, Repr

/-- Generic result row: a decoded JSONEachRow object, modelled as field/value
pairs. -/
abbrev Row := List (String × String)

/-- Environment variables as read at the top of `clickhouse-service.ts`:
each may be absent. -/
structure Env where
  CLICKHOUSE_URL : Option String
  CLICKHOUSE_USERNAME : Option String
  CLICKHOUSE_PASSWORD : Option String
  CLICKHOUSE_DATABASE : Option String

/-- JavaScript falsiness of `process.env.X as string`: `undefined` and the
empty string are falsy, every other string is truthy. -/
def jsFalsyEnv : Option String → Bool
  | none => true
  | some s => s == ""

/-- Validated configuration, available only after the startup check passes. -/
structure Config where
  url : String
  username : String
  password : String
  database : String
deriving DecidableEq, Repr

/-- Module-level validation in `clickhouse-service.ts`: if any of the four
environment variables is falsy, throw `Missing required ClickHouse environment
variables` before anything else runs. -/
def loadConfig (env : Env) : Except String Config :=
  if jsFalsyEnv env.CLICKHOUSE_URL || jsFalsyEnv env.CLICKHOUSE_USERNAME ||
      jsFalsyEnv env.CLICKHOUSE_PASSWORD || jsFalsyEnv env.CLICKHOUSE_DATABASE then
    .error "Missing required ClickHouse environment variables"
  else
    .ok ⟨env.CLICKHOUSE_URL.getD "", env.CLICKHOUSE_USERNAME.getD "",
      env.CLICKHOUSE_PASSWORD.getD "", env.CLICKHOUSE_DATABASE.getD ""⟩

/-- Observable startup actions after validation: the `ClickHouseService`
constructor calls `createClient` with the validated configuration, then
`index.ts` starts the MCP server. -/
inductive StartupStep where
  | createClient (cfg : Config)
  | serverStart
deriving DecidableEq, Repr

/-- Process startup order: importing `clickhouse-service.ts` runs the
environment validation at module top level; only when it succeeds is the
database client constructed and the server started. -/
def startup (env : Env) : Except String (List StartupStep) :=
  match loadConfig env with
  | .error e => .error e
  | .ok cfg => .ok [.createClient cfg, .serverStart]

/-- Abstract database backend: the responses of the external ClickHouse
client/engine, one typed channel per query shape the service emits, mirroring
the typed `result.json<T[]>()` casts in the source.  `storedRows` holds the
full contents of each table, used to interpret the fixed
`SELECT * ... LIMIT 5` sample template; `sampleFailResp` optionally makes that
call fail with a transport error instead. -/
structure Backend where
  showTablesResp : Except String (List TableRow)
  describeResp : String → Except String (List ColumnInfo)
  runResp : String → Except String (List Row)
  storedRows : String → List Row
  sampleFailResp : String → Option String

/-- `listTables`: issues `SHOW TABLES FROM <db>` and maps each decoded row to
its `name` field; any error propagates (the catch block logs and rethrows). -/
def listTables (b : Backend) : Except String (List String) :=
  match b.showTablesResp with
  | .error e => .error e
  | .ok data => .ok (data.map TableRow.name)

/-- `getTableSchema`: issues `DESCRIBE TABLE <db>.<table>` and returns the
decoded column list; any error propagates. -/
def getTableSchema (b : Backend) (tableName : String) : Except String (List ColumnInfo) :=
  b.describeResp tableName

/-- Guard condition of `executeQuery`: trim and lowercase the query, then test
whether it contains any of the six blocked substrings anywhere. -/
def isBlockedQuery (query : String) : Bool :=
  let normalizedQuery := jsToLowerCase (jsTrim query)
  jsIncludes normalizedQuery "insert" ||
  jsIncludes normalizedQuery "update" ||
  jsIncludes normalizedQuery "delete" ||
  jsIncludes normalizedQuery "drop" ||
  jsIncludes normalizedQuery "alter" ||
  jsIncludes normalizedQuery "create"

/-- `executeQuery`: reject blocked queries with
`Only read-only queries are allowed`; otherwise pass the original query string
to the client.  The second component is the list of SQL strings actually sent
to the database layer. -/
def executeQuery (b : Backend) (query : String) :
    Except String (List Row) × List String :=
  if isBlockedQuery query then
    (.error "Only read-only queries are allowed", [])
  else
    (b.runResp query, [query])

/-- JavaScript object assignment `record[key] = value` on a string-keyed
record, modelled as an association list with unique keys: an existing key is
overwritten in place, a new key is appended (insertion order). -/
def recordSet (r : List (String × α)) (key : String) (value : α) :
    List (String × α) :=
  if r.any (fun p => p.1 == key) then
    r.map (fun p => if p.1 == key then (key, value) else p)
  else
    r ++ [(key, value)]

/-- Loop body of `getDatabaseInfo`: for each listed table, fetch its schema and
store it under `tableSchemas[table]`; the first failing fetch aborts the whole
loop with its error. -/
def buildSchemas (b : Backend) : List String → List (String × List ColumnInfo) →
    Except String (List (String × List ColumnInfo))
  | [], acc => .ok acc
  | table :: rest, acc =>
    match getTableSchema b table with
    | .error e => .error e
    | .ok schema => buildSchemas b rest (recordSet acc table schema)

/-- Return type of `getDatabaseInfo`: database name, table list, and the
per-table schema record. -/
structure DatabaseInfo where
  database : String
  tables : List String
  schemas : List (String × List ColumnInfo)
deriving DecidableEq, Repr

/-- `getDatabaseInfo`: list the tables, then sequentially fetch each table's
schema into a record; return `{database, tables, schemas}`.  Any failure
propagates and no partial result is produced. -/
def getDatabaseInfo (cfg : Config) (b : Backend) : Except String DatabaseInfo :=
  match listTables b with
  | .error e => .error e
  | .ok tables =>
    match buildSchemas b tables [] with
    | .error e => .error e
    | .ok tableSchemas => .ok ⟨cfg.database, tables, tableSchemas⟩

/-- SQL text sent by `getTableSampleData`:
`SELECT * FROM <db>.<table> LIMIT 5`. -/
def sampleDataQuery (db tableName : String) : String :=
  "SELECT * FROM " ++ db ++ "." ++ tableName ++ " LIMIT 5"

/-- Engine semantics of a `SELECT * FROM t LIMIT n` query over the stored rows
of `t`: at most the first `n` stored rows are returned.  (The engine is
external to the repository; only its `LIMIT` clause semantics is modelled.) -/
def runSelectLimit (stored : List Row) (n : Nat) : List Row :=
  stored.take n

/-- `getTableSampleData`: issues `SELECT * FROM <db>.<table> LIMIT 5` and
returns the decoded rows; any error propagates.  The second component is the
SQL string sent. -/
def getTableSampleData (cfg : Config) (b : Backend) (tableName : String) :
    Except String (List Row) × List String :=
  match b.sampleFailResp tableName with
  | some e => (.error e, [sampleDataQuery cfg.database tableName])
  | none => (.ok (runSelectLimit (b.storedRows tableName) 5),
      [sampleDataQuery cfg.database tableName])

/-- Outcome of an MCP resource-read handler: either an exception propagated to
the transport layer (`thrown`), or a normal contents response. -/
inductive ResourceOutcome where
  | thrown (msg : String)
  | contents (uri text mimeType : String)
deriving DecidableEq, Repr

/-- One text content block of an MCP tool response. -/
structure ToolContent where
  type : String
  text : String
deriving DecidableEq, Repr

/-- MCP tool response: content blocks plus the error flag (absent in the
success path of the source, i.e. `false`). -/
structure ToolResponse where
  content : List ToolContent
  isError : Bool
deriving DecidableEq, Repr

/-- Resource handler `database-info` (`db://info` in `index.ts`): fetch the
database info and serialize it as JSON text; on failure, log and rethrow.
`stringify` abstracts `JSON.stringify(dbInfo, null, 2)`. -/
def databaseInfoResource (cfg : Config) (b : Backend)
    (stringify : DatabaseInfo → String) (uriHref : String) : ResourceOutcome :=
  match getDatabaseInfo cfg b with
  | .error e => .thrown e
  | .ok dbInfo => .contents uriHref (stringify dbInfo) "application/json"

/-- Resource handler `table-schema` (`table://{tableName}/schema`): fetch the
table's schema and serialize it; on failure, log and rethrow. -/
def tableSchemaResource (b : Backend) (stringify : List ColumnInfo → String)
    (uriHref tableName : String) : ResourceOutcome :=
  match getTableSchema b tableName with
  | .error e => .thrown e
  | .ok schema => .contents uriHref (stringify schema) "application/json"

/-- Resource handler `table-sample` (`table://{tableName}/sample`): fetch the
sample rows and serialize them; on failure, log and rethrow. -/
def tableSampleResource (cfg : Config) (b : Backend)
    (stringify : List Row → String) (uriHref tableName : String) :
    ResourceOutcome :=
  match (getTableSampleData cfg b tableName).1 with
  | .error e => .thrown e
  | .ok sampleData => .contents uriHref (stringify sampleData) "application/json"

/-- Candidate resource produced by a resource-template list callback. -/
structure ResourceDescriptor where
  name : String
  uri : String
deriving DecidableEq, Repr

/-- List callback of the `table-schema` resource template: one candidate per
table, named `Schema for <t>` at `table://<t>/schema`. -/
def tableSchemaListCallback (b : Backend) :
    Except String (List ResourceDescriptor) :=
  match listTables b with
  | .error e => .error e
  | .ok tables => .ok (tables.map (fun table =>
      ⟨"Schema for " ++ table, "table://" ++ table ++ "/schema"⟩))

/-- List callback of the `table-sample` resource template: one candidate per
table, named `Sample data for <t>` at `table://<t>/sample`. -/
def tableSampleListCallback (b : Backend) :
    Except String (List ResourceDescriptor) :=
  match listTables b with
  | .error e => .error e
  | .ok tables => .ok (tables.map (fun table =>
      ⟨"Sample data for " ++ table, "table://" ++ table ++ "/sample"⟩))

/-- Tool handler `execute-sql`: run the guarded query; on success return the
serialized rows, on any failure return `Error: <message>` with the error flag
set (never a thrown transport error).  The second component is the list of SQL
strings sent to the database layer.  `stringify` abstracts
`JSON.stringify(results, null, 2)`. -/
def executeSqlTool (b : Backend) (stringify : List Row → String)
    (query : String) : ToolResponse × List String :=
  match executeQuery b query with
  | (.ok results, sent) => (⟨[⟨"text", stringify results⟩], false⟩, sent)
  | (.error e, sent) => (⟨[⟨"text", "Error: " ++ e⟩], true⟩, sent)

/-- Model of JavaScript `Array.prototype.join(sep)`. -/
def joinStrings (sep : String) : List String → String
  | [] => ""
  | [a] => a
  | a :: rest => a ++ sep ++ joinStrings sep rest

/-- Line rendered by `natural-language-query` for one schema record entry:
`Table "<t>" has columns: <c1> (<ty1>), <c2> (<ty2>), ...`. -/
def tableLine (p : String × List ColumnInfo) : String :=
  "Table \"" ++ p.1 ++ "\" has columns: " ++
    joinStrings ", " (p.2.map (fun col => col.name ++ " (" ++ col.type ++ ")"))

/-- Schema summary rendered by `natural-language-query`: one `tableLine` per
record entry, joined by blank lines. -/
def schemaInfoText (schemas : List (String × List ColumnInfo)) : String :=
  joinStrings "\n\n" (schemas.map tableLine)

/-- Full response text of `natural-language-query` on success, embedding the
question, the schema summary, and the suggestion to use `execute-sql`. -/
def nlqResponseText (question : String)
    (schemas : List (String × List ColumnInfo)) : String :=
  "Based on your question: \"" ++ question ++
    "\", here is the database schema to reference:\n\n" ++
    schemaInfoText schemas ++
    "\n\nTo answer this question, you could use a SQL query like: \n\nSELECT * FROM ... WHERE ... LIMIT 10;\n\nYou can execute specific SQL queries using the \"execute-sql\" tool."

/-- Tool handler `natural-language-query`: fetch the database info, render the
schema summary, and return it with the question; it runs no user SQL.  On any
failure return `Error: <message>` with the error flag set (never a thrown
transport error). -/
def naturalLanguageQueryTool (cfg : Config) (b : Backend) (question : String) :
    ToolResponse :=
  match getDatabaseInfo cfg b with
  | .error e => ⟨[⟨"text", "Error: " ++ e⟩], true⟩
  | .ok dbInfo => ⟨[⟨"text", nlqResponseText question dbInfo.schemas⟩], false⟩

/-- Containment of one string inside another: the characters of `sub` occur
contiguously inside `s`. -/
def TextContains (s sub : String) : Prop :=
  sub.data <:+: s.data

instance (s sub : String) : Decidable (TextContains s sub) :=
  inferInstanceAs (Decidable (sub.data <:+: s.data))

/-- Configuration of the worked example: database `analytics`. -/
def sampleConfig : Config :=
  ⟨"http://localhost:8123", "reader", "secret", "analytics"⟩

/-- Stored rows of the example table `events`: seven rows, more than the
sample limit. -/
def eventsRows : List Row :=
  [[("id", "1")], [("id", "2")], [("id", "3")], [("id", "4")],
   [("id", "5")], [("id", "6")], [("id", "7")]]

/-- Healthy example backend: tables `events` and `users` with the schemas of
the worked scenario, seven stored rows in `events`, and a one-row answer to
every ad-hoc query. -/
def sampleBackend : Backend where
  showTablesResp := .ok [⟨"events"⟩, ⟨"users"⟩]
  describeResp := fun t =>
    if t == "events" then .ok [⟨"id", "UInt64"⟩, ⟨"ts", "DateTime"⟩]
    else if t == "users" then .ok [⟨"id", "UInt64"⟩, ⟨"name", "String"⟩]
    else .error ("Table " ++ t ++ " does not exist")
  runResp := fun _ => .ok [[("id", "1")]]
  storedRows := fun t => if t == "events" then eventsRows else []
  sampleFailResp := fun _ => none

/-- Backend whose every channel fails, for exercising the error paths. -/
def failingBackend : Backend where
  showTablesResp := .error "connection refused"
  describeResp := fun _ => .error "describe failed"
  runResp := fun _ => .error "query failed"
  storedRows := fun _ => []
  sampleFailResp := fun _ => some "sample failed"

/-- Backend where listing succeeds but the schema fetch of the second listed
table fails. -/
def schemaFailBackend : Backend where
  showTablesResp := .ok [⟨"events"⟩, ⟨"users"⟩]
  describeResp := fun t =>
    if t == "events" then .ok [⟨"id", "UInt64"⟩, ⟨"ts", "DateTime"⟩]
    else .error "describe failed"
  runResp := fun _ => .ok []
  storedRows := fun _ => []
  sampleFailResp := fun _ => none

/-- Setting a key that is not present appends the pair. -/
theorem recordSet_not_mem (r : List (String × α)) (k : String) (v : α)
    (h : k ∉ r.map Prod.fst) : recordSet r k v = r ++ [(k, v)] := by
  have hany : r.any (fun p => p.1 == k) = false := by
    simp only [List.any_eq_false, beq_iff_eq]
    intro p hp hpk
    exact h (List.mem_map.mpr ⟨p, hp, hpk⟩)
  simp [recordSet, hany]

/-- Lookup of a key present in the left part of an append stays in the left
part. -/
theorem lookup_append_left (k : String) (l₂ : List (String × α)) :
    ∀ l₁ : List (String × α), k ∈ l₁.map Prod.fst →
      List.lookup k (l₁ ++ l₂) = List.lookup k l₁
  | [], h => by simp at h
  | (a, v) :: rest, h => by
    cases hak : (k == a) with
    | true => simp [List.lookup, hak]
    | false =>
      have hmem : k ∈ rest.map Prod.fst := by
        simp only [List.map_cons, List.mem_cons] at h
        rcases h with h | h
        · subst h
          simp at hak
        · exact h
      simp [List.lookup, hak, lookup_append_left k l₂ rest hmem]

/-- Lookup of a key absent from the left part of an append moves to the right
part. -/
theorem lookup_append_right (k : String) (l₂ : List (String × α)) :
    ∀ l₁ : List (String × α), k ∉ l₁.map Prod.fst →
      List.lookup k (l₁ ++ l₂) = List.lookup k l₂
  | [], _ => by simp
  | (a, v) :: rest, h => by
    have hak : (k == a) = false := by
      simp only [List.map_cons, List.mem_cons, not_or] at h
      simp [beq_eq_false_iff_ne, h.1]
    have hmem : k ∉ rest.map Prod.fst := by
      simp only [List.map_cons, List.mem_cons, not_or] at h
      exact h.2
    simp [List.lookup, hak, lookup_append_right k l₂ rest hmem]

/-- Schema-record construction: when the listed tables are distinct and every
schema fetch succeeds, the loop of `getDatabaseInfo` succeeds, its record keys
extend the accumulator's keys by exactly the listed tables in order, old keys
keep their values, and each listed table maps to its fetched schema. -/
theorem buildSchemas_ok (b : Backend) (ts : List String) :
    ∀ acc : List (String × List ColumnInfo),
    (acc.map Prod.fst ++ ts).Nodup →
    (∀ t ∈ ts, ∃ cols, b.describeResp t = .ok cols) →
    ∃ res, buildSchemas b ts acc = .ok res ∧
      res.map Prod.fst = acc.map Prod.fst ++ ts ∧
      (∀ k ∈ acc.map Prod.fst, List.lookup k res = List.lookup k acc) ∧
      (∀ t ∈ ts, ∀ cols, b.describeResp t = .ok cols →
        List.lookup t res = some cols) := by
  induction ts with
  | nil =>
    intro acc _ _
    exact ⟨acc, rfl, by simp, fun k _ => rfl, fun t ht => by simp at ht⟩
  | cons t rest ih =>
    intro acc hnd hok
    obtain ⟨cols, hcols⟩ := hok t (List.mem_cons_self t rest)
    obtain ⟨hnd1, hnd2, hdisj⟩ := List.nodup_append.mp hnd
    have htacc : t ∉ acc.map Prod.fst := fun hmem =>
      hdisj hmem (List.mem_cons_self t rest)
    have hrs : recordSet acc t cols = acc ++ [(t, cols)] :=
      recordSet_not_mem acc t cols htacc
    have hnd' : ((acc ++ [(t, cols)]).map Prod.fst ++ rest).Nodup := by
      rw [List.map_append, List.append_assoc]
      simpa using hnd
    obtain ⟨res, hres, hkeys, hpres, hlook⟩ :=
      ih (acc ++ [(t, cols)]) hnd' (fun t' ht' => hok t' (List.mem_cons_of_mem t ht'))
    refine ⟨res, ?_, ?_, ?_, ?_⟩
    · simp [buildSchemas, getTableSchema, hcols, hrs, hres]
    · rw [hkeys, List.map_append, List.append_assoc]
      rfl
    · intro k hk
      have hk' : k ∈ (acc ++ [(t, cols)]).map Prod.fst := by
        rw [List.map_append]
        exact List.mem_append_left _ hk
      rw [hpres k hk', lookup_append_left k [(t, cols)] acc hk]
    · intro t' ht' cols' hcols'
      rcases List.mem_cons.mp ht' with rfl | htail
      · have ht'mem : t' ∈ (acc ++ [(t', cols)]).map Prod.fst := by
          rw [List.map_append]
          exact List.mem_append_right _ (by simp)
        rw [hpres t' ht'mem, lookup_append_right t' [(t', cols)] acc htacc]
        rw [hcols] at hcols'
        cases hcols'
        simp [List.lookup]
      · exact hlook t' htail cols' hcols'

/-- C3: for every successful call, the snapshot returned by `getDatabaseInfo`
has a `tables` sequence equal to the `listTables` result at call time, and a
`schemas` record with exactly one entry per listed table (same keys in the
same order), each entry equal to that table's `getTableSchema` result. -/
theorem getDatabaseInfo_snapshot (cfg : Config) (b : Backend)
    (rows : List TableRow)
    (hlist : b.showTablesResp = .ok rows)
    (hnd : (rows.map TableRow.name).Nodup)
    (hok : ∀ t ∈ rows.map TableRow.name, ∃ cols, b.describeResp t = .ok cols) :
    ∃ info, getDatabaseInfo cfg b = .ok info ∧
      listTables b = .ok info.tables ∧
      info.tables = rows.map TableRow.name ∧
      info.schemas.map Prod.fst = info.tables ∧
      (∀ t ∈ info.tables, ∀ cols, getTableSchema b t = .ok cols →
        List.lookup t info.schemas = some cols) := by
  have hl : listTables b = .ok (rows.map TableRow.name) := by
    simp [listTables, hlist]
  obtain ⟨res, hres, hkeys, _, hlook⟩ :=
    buildSchemas_ok b (rows.map TableRow.name) [] (by simpa using hnd) hok
  refine ⟨⟨cfg.database, rows.map TableRow.name, res⟩, ?_, hl, rfl, ?_, ?_⟩
  · simp [getDatabaseInfo, hl, hres]
  · simpa using hkeys
  · intro t ht cols hcols
    exact hlook t ht cols hcols

/-- Witness for C3 on the worked scenario: tables `events` and `users` with
their two-column schemas. -/
theorem getDatabaseInfo_snapshot_witness :
    (sampleBackend.showTablesResp = .ok [⟨"events"⟩, ⟨"users"⟩] ∧
     (([⟨"events"⟩, ⟨"users"⟩] : List TableRow).map TableRow.name).Nodup ∧
     (∀ t ∈ ([⟨"events"⟩, ⟨"users"⟩] : List TableRow).map TableRow.name,
        ∃ cols, sampleBackend.describeResp t = .ok cols)) ∧
    (∃ info, getDatabaseInfo sampleConfig sampleBackend = .ok info ∧
      listTables sampleBackend = .ok info.tables ∧
      info.tables = ([⟨"events"⟩, ⟨"users"⟩] : List TableRow).map TableRow.name ∧
      info.schemas.map Prod.fst = info.tables ∧
      (∀ t ∈ info.tables, ∀ cols, getTableSchema sampleBackend t = .ok cols →
        List.lookup t info.schemas = some cols)) := by
  have hok : ∀ t ∈ ([⟨"events"⟩, ⟨"users"⟩] : List TableRow).map TableRow.name,
      ∃ cols, sampleBackend.describeResp t = .ok cols := by
    intro t ht
    simp only [List.map_cons, List.map_nil, List.mem_cons,
      List.not_mem_nil, or_false] at ht
    rcases ht with rfl | rfl
    · exact ⟨_, rfl⟩
    · exact ⟨_, rfl⟩
  exact ⟨⟨rfl, by decide, hok⟩,
    getDatabaseInfo_snapshot sampleConfig sampleBackend _ rfl (by decide) hok⟩

/-- Schema-record construction fails whenever some listed table's schema fetch
fails. -/
theorem buildSchemas_err (b : Backend) (ts : List String) :
    ∀ acc, (∃ t ∈ ts, ∃ e, b.describeResp t = .error e) →
      ∃ e', buildSchemas b ts acc = .error e' := by
  induction ts with
  | nil => intro acc h; simp at h
  | cons t0 rest ih =>
    intro acc h
    cases hd : b.describeResp t0 with
    | error e => exact ⟨e, by simp [buildSchemas, getTableSchema, hd]⟩
    | ok cols =>
      obtain ⟨t, ht, e, he⟩ := h
      rcases List.mem_cons.mp ht with rfl | htail
      · rw [hd] at he
        exact absurd he (by simp)
      · obtain ⟨e', he'⟩ := ih (recordSet acc t0 cols) ⟨t, htail, e, he⟩
        exact ⟨e', by simp [buildSchemas, getTableSchema, hd, he']⟩

/-- C6: if fetching the schema of any listed table fails during
`getDatabaseInfo`, the whole call propagates an error and no partial snapshot
is returned. -/
theorem getDatabaseInfo_schema_failure_aborts (cfg : Config) (b : Backend)
    (rows : List TableRow) (t e : String)
    (hlist : b.showTablesResp = .ok rows)
    (ht : t ∈ rows.map TableRow.name)
    (he : getTableSchema b t = .error e) :
    (∃ e', getDatabaseInfo cfg b = .error e') ∧
    ∀ info, getDatabaseInfo cfg b ≠ .ok info := by
  have hl : listTables b = .ok (rows.map TableRow.name) := by
    simp [listTables, hlist]
  obtain ⟨e', he'⟩ := buildSchemas_err b (rows.map TableRow.name) [] ⟨t, ht, e, he⟩
  refine ⟨⟨e', ?_⟩, ?_⟩
  · simp [getDatabaseInfo, hl, he']
  · intro info
    simp [getDatabaseInfo, hl, he']

/-- Witness for C6: on `schemaFailBackend` the schema fetch of listed table
`users` fails, and the whole call errors. -/
theorem getDatabaseInfo_schema_failure_aborts_witness :
    (schemaFailBackend.showTablesResp = .ok [⟨"events"⟩, ⟨"users"⟩] ∧
     "users" ∈ ([⟨"events"⟩, ⟨"users"⟩] : List TableRow).map TableRow.name ∧
     getTableSchema schemaFailBackend "users" = .error "describe failed") ∧
    ((∃ e', getDatabaseInfo sampleConfig schemaFailBackend = .error e') ∧
     ∀ info, getDatabaseInfo sampleConfig schemaFailBackend ≠ .ok info) :=
  ⟨⟨rfl, by decide, rfl⟩,
   getDatabaseInfo_schema_failure_aborts sampleConfig schemaFailBackend
     [⟨"events"⟩, ⟨"users"⟩] "users" "describe failed" rfl (by decide) rfl⟩

/-- C1: for every SQL string whose trimmed, lowercased form contains any of
the literal substrings `insert`, `update`, `delete`, `drop`, `alter`,
`create` anywhere, the `execute-sql` tool returns an error-flagged response
(`isError` set, text beginning `Error:`) and no query is sent to the database
layer. -/
theorem executeSql_blocked_rejected (b : Backend) (stringify : List Row → String)
    (query : String)
    (h : jsIncludes (jsToLowerCase (jsTrim query)) "insert" = true ∨
         jsIncludes (jsToLowerCase (jsTrim query)) "update" = true ∨
         jsIncludes (jsToLowerCase (jsTrim query)) "delete" = true ∨
         jsIncludes (jsToLowerCase (jsTrim query)) "drop" = true ∨
         jsIncludes (jsToLowerCase (jsTrim query)) "alter" = true ∨
         jsIncludes (jsToLowerCase (jsTrim query)) "create" = true) :
    (executeSqlTool b stringify query).1.isError = true ∧
    (∃ rest, (executeSqlTool b stringify query).1.content =
        [⟨"text", "Error:" ++ rest⟩]) ∧
    (executeSqlTool b stringify query).2 = [] := by
  have hb : isBlockedQuery query = true := by
    unfold isBlockedQuery
    rcases h with h | h | h | h | h | h <;> simp [h]
  refine ⟨?_, ⟨" Only read-only queries are allowed", ?_⟩, ?_⟩ <;>
    simp [executeSqlTool, executeQuery, hb]

/-- Witness for C1 at the concrete blocked query `DROP TABLE events`. -/
theorem executeSql_blocked_rejected_witness :
    (jsIncludes (jsToLowerCase (jsTrim "DROP TABLE events")) "insert" = true ∨
     jsIncludes (jsToLowerCase (jsTrim "DROP TABLE events")) "update" = true ∨
     jsIncludes (jsToLowerCase (jsTrim "DROP TABLE events")) "delete" = true ∨
     jsIncludes (jsToLowerCase (jsTrim "DROP TABLE events")) "drop" = true ∨
     jsIncludes (jsToLowerCase (jsTrim "DROP TABLE events")) "alter" = true ∨
     jsIncludes (jsToLowerCase (jsTrim "DROP TABLE events")) "create" = true) ∧
    ((executeSqlTool sampleBackend (fun _ => "") "DROP TABLE events").1.isError = true ∧
     (∃ rest, (executeSqlTool sampleBackend (fun _ => "") "DROP TABLE events").1.content =
        [⟨"text", "Error:" ++ rest⟩]) ∧
     (executeSqlTool sampleBackend (fun _ => "") "DROP TABLE events").2 = []) :=
  ⟨by decide,
   executeSql_blocked_rejected sampleBackend (fun _ => "") "DROP TABLE events" (by decide)⟩

/-- C2: for every SQL string whose trimmed, lowercased form contains none of
the six blocked substrings, `executeQuery` passes the original query string,
unmodified, to the database layer. -/
theorem executeQuery_forwards_unmodified (b : Backend) (query : String)
    (h : jsIncludes (jsToLowerCase (jsTrim query)) "insert" = false ∧
         jsIncludes (jsToLowerCase (jsTrim query)) "update" = false ∧
         jsIncludes (jsToLowerCase (jsTrim query)) "delete" = false ∧
         jsIncludes (jsToLowerCase (jsTrim query)) "drop" = false ∧
         jsIncludes (jsToLowerCase (jsTrim query)) "alter" = false ∧
         jsIncludes (jsToLowerCase (jsTrim query)) "create" = false) :
    executeQuery b query = (b.runResp query, [query]) := by
  have hb : isBlockedQuery query = false := by
    unfold isBlockedQuery
    simp [h.1, h.2.1, h.2.2.1, h.2.2.2.1, h.2.2.2.2.1, h.2.2.2.2.2]
  simp [executeQuery, hb]

/-- Witness for C2 at the concrete read query
`SELECT id FROM events LIMIT 1`. -/
theorem executeQuery_forwards_unmodified_witness :
    (jsIncludes (jsToLowerCase (jsTrim "SELECT id FROM events LIMIT 1")) "insert" = false ∧
     jsIncludes (jsToLowerCase (jsTrim "SELECT id FROM events LIMIT 1")) "update" = false ∧
     jsIncludes (jsToLowerCase (jsTrim "SELECT id FROM events LIMIT 1")) "delete" = false ∧
     jsIncludes (jsToLowerCase (jsTrim "SELECT id FROM events LIMIT 1")) "drop" = false ∧
     jsIncludes (jsToLowerCase (jsTrim "SELECT id FROM events LIMIT 1")) "alter" = false ∧
     jsIncludes (jsToLowerCase (jsTrim "SELECT id FROM events LIMIT 1")) "create" = false) ∧
    executeQuery sampleBackend "SELECT id FROM events LIMIT 1" =
      (sampleBackend.runResp "SELECT id FROM events LIMIT 1",
        ["SELECT id FROM events LIMIT 1"]) :=
  ⟨by decide,
   executeQuery_forwards_unmodified sampleBackend "SELECT id FROM events LIMIT 1" (by decide)⟩

/-- C5: for every table name, `getTableSampleData` returns at most 5 rows,
regardless of the number of rows stored in the table. -/
theorem getTableSampleData_at_most_five (cfg : Config) (b : Backend)
    (tableName : String) (rows : List Row)
    (h : (getTableSampleData cfg b tableName).1 = .ok rows) :
    rows.length ≤ 5 := by
  unfold getTableSampleData at h
  cases hf : b.sampleFailResp tableName with
  | some e => rw [hf] at h; simp at h
  | none =>
    rw [hf] at h
    simp only [Except.ok.injEq] at h
    rw [← h]
    exact List.length_take_le 5 _

/-- Witness for C5: the `events` table stores seven rows, yet the sample is
the first five. -/
theorem getTableSampleData_at_most_five_witness :
    (getTableSampleData sampleConfig sampleBackend "events").1 =
      .ok (eventsRows.take 5) ∧
    (eventsRows.take 5).length ≤ 5 :=
  ⟨rfl, getTableSampleData_at_most_five sampleConfig sampleBackend "events" _ rfl⟩

/-- C8: if any of the four required configuration values is missing at
startup, startup fails fatally: no client is created and the server does not
start. -/
theorem startup_missing_config_fatal (env : Env)
    (h : env.CLICKHOUSE_URL = none ∨ env.CLICKHOUSE_USERNAME = none ∨
         env.CLICKHOUSE_PASSWORD = none ∨ env.CLICKHOUSE_DATABASE = none) :
    startup env = .error "Missing required ClickHouse environment variables" ∧
    ∀ steps, startup env ≠ .ok steps := by
  have hc : loadConfig env =
      .error "Missing required ClickHouse environment variables" := by
    unfold loadConfig
    rcases h with h | h | h | h <;> simp [jsFalsyEnv, h]
  refine ⟨?_, ?_⟩
  · simp [startup, hc]
  · intro steps
    simp [startup, hc]

/-- Witness for C8 at an environment missing the connection URL. -/
theorem startup_missing_config_fatal_witness :
    ((⟨none, some "reader", some "secret", some "analytics"⟩ : Env).CLICKHOUSE_URL = none ∨
     (⟨none, some "reader", some "secret", some "analytics"⟩ : Env).CLICKHOUSE_USERNAME = none ∨
     (⟨none, some "reader", some "secret", some "analytics"⟩ : Env).CLICKHOUSE_PASSWORD = none ∨
     (⟨none, some "reader", some "secret", some "analytics"⟩ : Env).CLICKHOUSE_DATABASE = none) ∧
    (startup ⟨none, some "reader", some "secret", some "analytics"⟩ =
      .error "Missing required ClickHouse environment variables" ∧
     ∀ steps, startup ⟨none, some "reader", some "secret", some "analytics"⟩ ≠ .ok steps) :=
  ⟨Or.inl rfl,
   startup_missing_config_fatal ⟨none, some "reader", some "secret", some "analytics"⟩ (Or.inl rfl)⟩

/-- C10: for every successful `getDatabaseInfo` call, the `database` field of
the returned snapshot equals the configured database name, independent of the
backend's tables and schemas. -/
theorem getDatabaseInfo_database_is_configured (cfg : Config) (b : Backend)
    (info : DatabaseInfo) (h : getDatabaseInfo cfg b = .ok info) :
    info.database = cfg.database := by
  unfold getDatabaseInfo at h
  cases h1 : listTables b with
  | error e => rw [h1] at h; exact absurd h (by simp)
  | ok tables =>
    rw [h1] at h
    dsimp only at h
    cases h2 : buildSchemas b tables [] with
    | error e => rw [h2] at h; exact absurd h (by simp)
    | ok ts =>
      rw [h2] at h
      dsimp only at h
      cases h
      rfl

/-- Witness for C10 on the example backend: the snapshot's database is
`analytics`, the configured name. -/
theorem getDatabaseInfo_database_is_configured_witness :
    getDatabaseInfo sampleConfig sampleBackend =
      .ok (DatabaseInfo.mk "analytics" ["events", "users"]
        [("events", [⟨"id", "UInt64"⟩, ⟨"ts", "DateTime"⟩]),
         ("users", [⟨"id", "UInt64"⟩, ⟨"name", "String"⟩])]) ∧
    (DatabaseInfo.mk "analytics" ["events", "users"]
        [("events", [⟨"id", "UInt64"⟩, ⟨"ts", "DateTime"⟩]),
         ("users", [⟨"id", "UInt64"⟩, ⟨"name", "String"⟩])]).database =
      sampleConfig.database :=
  ⟨rfl, getDatabaseInfo_database_is_configured sampleConfig sampleBackend _ rfl⟩

/-- C4: every resource-read handler re-raises any failure of its underlying
operation as a transport-level error (`thrown`), while every tool-call handler
catches any failure and returns a normal response whose text is
`Error: <message>` with the `isError` flag set.  (Tool handlers return
`ToolResponse` values by type: they have no `thrown` outcome at all.) -/
theorem handlers_error_asymmetry (cfg : Config) (b : Backend)
    (fInfo : DatabaseInfo → String) (fSchema : List ColumnInfo → String)
    (fRows gRows : List Row → String)
    (u1 u2 u3 tbl query question e1 e2 e3 e4 : String)
    (hshow : b.showTablesResp = .error e1)
    (hdesc : b.describeResp tbl = .error e2)
    (hsample : b.sampleFailResp tbl = some e3)
    (hrun : b.runResp query = .error e4)
    (hq : isBlockedQuery query = false) :
    databaseInfoResource cfg b fInfo u1 = .thrown e1 ∧
    tableSchemaResource b fSchema u2 tbl = .thrown e2 ∧
    tableSampleResource cfg b fRows u3 tbl = .thrown e3 ∧
    (executeSqlTool b gRows query).1 = ⟨[⟨"text", "Error: " ++ e4⟩], true⟩ ∧
    naturalLanguageQueryTool cfg b question = ⟨[⟨"text", "Error: " ++ e1⟩], true⟩ := by
  have hl : listTables b = .error e1 := by simp [listTables, hshow]
  have hi : getDatabaseInfo cfg b = .error e1 := by simp [getDatabaseInfo, hl]
  refine ⟨?_, ?_, ?_, ?_, ?_⟩
  · simp [databaseInfoResource, hi]
  · simp [tableSchemaResource, getTableSchema, hdesc]
  · simp [tableSampleResource, getTableSampleData, hsample]
  · simp [executeSqlTool, executeQuery, hq, hrun]
  · simp [naturalLanguageQueryTool, hi]

/-- Witness for C4 on the backend whose every channel fails. -/
theorem handlers_error_asymmetry_witness :
    (failingBackend.showTablesResp = .error "connection refused" ∧
     failingBackend.describeResp "t" = .error "describe failed" ∧
     failingBackend.sampleFailResp "t" = some "sample failed" ∧
     failingBackend.runResp "SELECT 1" = .error "query failed" ∧
     isBlockedQuery "SELECT 1" = false) ∧
    (databaseInfoResource sampleConfig failingBackend (fun _ => "") "db://info" =
        .thrown "connection refused" ∧
     tableSchemaResource failingBackend (fun _ => "") "table://t/schema" "t" =
        .thrown "describe failed" ∧
     tableSampleResource sampleConfig failingBackend (fun _ => "") "table://t/sample" "t" =
        .thrown "sample failed" ∧
     (executeSqlTool failingBackend (fun _ => "") "SELECT 1").1 =
        ⟨[⟨"text", "Error: " ++ "query failed"⟩], true⟩ ∧
     naturalLanguageQueryTool sampleConfig failingBackend "how many users?" =
        ⟨[⟨"text", "Error: " ++ "connection refused"⟩], true⟩) :=
  ⟨⟨rfl, rfl, rfl, rfl, by decide⟩,
   handlers_error_asymmetry sampleConfig failingBackend (fun _ => "") (fun _ => "")
     (fun _ => "") (fun _ => "") "db://info" "table://t/schema" "table://t/sample"
     "t" "SELECT 1" "how many users?" "connection refused" "describe failed"
     "sample failed" "query failed" rfl rfl rfl rfl (by decide)⟩

/-- C7: the list callbacks of the `table-schema` and `table-sample` resource
templates return exactly one candidate resource per table returned by
`listTables`, in order, with URIs `table://<name>/schema` and
`table://<name>/sample` respectively. -/
theorem resource_list_callbacks (b : Backend) (tables : List String)
    (h : listTables b = .ok tables) :
    tableSchemaListCallback b = .ok (tables.map (fun table =>
      ⟨"Schema for " ++ table, "table://" ++ table ++ "/schema"⟩)) ∧
    tableSampleListCallback b = .ok (tables.map (fun table =>
      ⟨"Sample data for " ++ table, "table://" ++ table ++ "/sample"⟩)) ∧
    (∀ ds, tableSchemaListCallback b = .ok ds → ds.length = tables.length) ∧
    (∀ ds, tableSampleListCallback b = .ok ds → ds.length = tables.length) := by
  refine ⟨?_, ?_, ?_, ?_⟩
  · simp [tableSchemaListCallback, h]
  · simp [tableSampleListCallback, h]
  · intro ds hds
    rw [tableSchemaListCallback, h] at hds
    dsimp only at hds
    cases hds
    simp
  · intro ds hds
    rw [tableSampleListCallback, h] at hds
    dsimp only at hds
    cases hds
    simp

/-- Witness for C7 on the example backend with tables `events` and `users`. -/
theorem resource_list_callbacks_witness :
    listTables sampleBackend = .ok ["events", "users"] ∧
    (tableSchemaListCallback sampleBackend = .ok ((["events", "users"]).map (fun table =>
      ⟨"Schema for " ++ table, "table://" ++ table ++ "/schema"⟩)) ∧
     tableSampleListCallback sampleBackend = .ok ((["events", "users"]).map (fun table =>
      ⟨"Sample data for " ++ table, "table://" ++ table ++ "/sample"⟩)) ∧
     (∀ ds, tableSchemaListCallback sampleBackend = .ok ds →
        ds.length = (["events", "users"]).length) ∧
     (∀ ds, tableSampleListCallback sampleBackend = .ok ds →
        ds.length = (["events", "users"]).length)) :=
  ⟨rfl, resource_list_callbacks sampleBackend ["events", "users"] rfl⟩

/-- Containment is preserved by extending the containing string on the
right. -/
theorem textContains_append_left (s t sub : String) (h : TextContains s sub) :
    TextContains (s ++ t) sub := by
  unfold TextContains at h ⊢
  rw [String.data_append]
  exact h.trans (List.prefix_append s.data t.data).isInfix

/-- Containment is preserved by extending the containing string on the
left. -/
theorem textContains_append_right (s t sub : String) (h : TextContains t sub) :
    TextContains (s ++ t) sub := by
  unfold TextContains at h ⊢
  rw [String.data_append]
  exact h.trans (List.suffix_append s.data t.data).isInfix

/-- Every string contains itself. -/
theorem textContains_refl (s : String) : TextContains s s :=
  List.infix_rfl

/-- A joined list of strings contains each of its members. -/
theorem textContains_joinStrings (sep : String) (parts : List String)
    (a : String) (ha : a ∈ parts) : TextContains (joinStrings sep parts) a := by
  induction parts with
  | nil => simp at ha
  | cons p rest ih =>
    rcases List.mem_cons.mp ha with rfl | hmem
    · cases rest with
      | nil => exact textContains_refl a
      | cons q qs =>
        show TextContains (a ++ sep ++ joinStrings sep (q :: qs)) a
        exact textContains_append_left _ _ _
          (textContains_append_left _ _ _ (textContains_refl a))
    · cases rest with
      | nil => simp at hmem
      | cons q qs =>
        show TextContains (p ++ sep ++ joinStrings sep (q :: qs)) a
        exact textContains_append_right _ _ _ (ih hmem)

/-- The loop of `getDatabaseInfo` reads only the `describeResp` channel. -/
theorem buildSchemas_channels (b b' : Backend)
    (hdesc : b'.describeResp = b.describeResp) :
    ∀ (ts : List String) acc, buildSchemas b' ts acc = buildSchemas b ts acc := by
  intro ts
  induction ts with
  | nil => intro acc; rfl
  | cons t rest ih =>
    intro acc
    simp only [buildSchemas, getTableSchema, hdesc]
    cases b.describeResp t with
    | error e => rfl
    | ok cols => exact ih _

/-- `getDatabaseInfo` reads only the `showTablesResp` and `describeResp`
channels. -/
theorem getDatabaseInfo_channels (cfg : Config) (b b' : Backend)
    (hshow : b'.showTablesResp = b.showTablesResp)
    (hdesc : b'.describeResp = b.describeResp) :
    getDatabaseInfo cfg b' = getDatabaseInfo cfg b := by
  cases hs : b.showTablesResp with
  | error e => simp [getDatabaseInfo, listTables, hshow, hs]
  | ok rows =>
    simp [getDatabaseInfo, listTables, hshow, hs,
      buildSchemas_channels b b' hdesc]

set_option maxRecDepth 40000 in
/-- C9: `natural-language-query` never runs any user SQL (its behavior depends
only on the metadata channels, not on the ad-hoc query channel), and its
success response embeds the literal question, one rendered
`Table "<name>" has columns: <col> (<type>), ...` line per schema entry, and
the suggestion to use the `execute-sql` tool. -/
theorem naturalLanguageQuery_response (cfg : Config) (b : Backend)
    (question : String) (info : DatabaseInfo)
    (hinfo : getDatabaseInfo cfg b = .ok info) :
    (∀ b' : Backend, b'.showTablesResp = b.showTablesResp →
      b'.describeResp = b.describeResp →
      naturalLanguageQueryTool cfg b' question =
        naturalLanguageQueryTool cfg b question) ∧
    naturalLanguageQueryTool cfg b question =
      ⟨[⟨"text", nlqResponseText question info.schemas⟩], false⟩ ∧
    TextContains (nlqResponseText question info.schemas) question ∧
    (∀ p ∈ info.schemas,
      TextContains (nlqResponseText question info.schemas) (tableLine p)) ∧
    TextContains (nlqResponseText question info.schemas)
      "You can execute specific SQL queries using the \"execute-sql\" tool." := by
  refine ⟨?_, ?_, ?_, ?_, ?_⟩
  · intro b' h1 h2
    simp [naturalLanguageQueryTool, getDatabaseInfo_channels cfg b b' h1 h2]
  · simp [naturalLanguageQueryTool, hinfo]
  · unfold nlqResponseText
    exact textContains_append_left _ _ _ (textContains_append_left _ _ _
      (textContains_append_left _ _ _
        (textContains_append_right _ _ _ (textContains_refl question))))
  · intro p hp
    unfold nlqResponseText schemaInfoText
    exact textContains_append_left _ _ _ (textContains_append_right _ _ _
      (textContains_joinStrings "\n\n" (info.schemas.map tableLine) (tableLine p)
        (List.mem_map_of_mem tableLine hp)))
  · unfold nlqResponseText
    exact textContains_append_right _ _ _ (by decide)

/-- Witness for C9 on the worked scenario and the question of the spec. -/
theorem naturalLanguageQuery_response_witness :
    getDatabaseInfo sampleConfig sampleBackend =
      .ok (DatabaseInfo.mk "analytics" ["events", "users"]
        [("events", [⟨"id", "UInt64"⟩, ⟨"ts", "DateTime"⟩]),
         ("users", [⟨"id", "UInt64"⟩, ⟨"name", "String"⟩])]) ∧
    ((∀ b' : Backend, b'.showTablesResp = sampleBackend.showTablesResp →
        b'.describeResp = sampleBackend.describeResp →
        naturalLanguageQueryTool sampleConfig b' "how many users signed up last week?" =
          naturalLanguageQueryTool sampleConfig sampleBackend
            "how many users signed up last week?") ∧
     naturalLanguageQueryTool sampleConfig sampleBackend
        "how many users signed up last week?" =
      ⟨[⟨"text", nlqResponseText "how many users signed up last week?"
          (DatabaseInfo.mk "analytics" ["events", "users"]
            [("events", [⟨"id", "UInt64"⟩, ⟨"ts", "DateTime"⟩]),
             ("users", [⟨"id", "UInt64"⟩, ⟨"name", "String"⟩])]).schemas⟩], false⟩ ∧
     TextContains (nlqResponseText "how many users signed up last week?"
        (DatabaseInfo.mk "analytics" ["events", "users"]
          [("events", [⟨"id", "UInt64"⟩, ⟨"ts", "DateTime"⟩]),
           ("users", [⟨"id", "UInt64"⟩, ⟨"name", "String"⟩])]).schemas)
        "how many users signed up last week?" ∧
     (∀ p ∈ (DatabaseInfo.mk "analytics" ["events", "users"]
          [("events", [⟨"id", "UInt64"⟩, ⟨"ts", "DateTime"⟩]),
           ("users", [⟨"id", "UInt64"⟩, ⟨"name", "String"⟩])]).schemas,
        TextContains (nlqResponseText "how many users signed up last week?"
          (DatabaseInfo.mk "analytics" ["events", "users"]
            [("events", [⟨"id", "UInt64"⟩, ⟨"ts", "DateTime"⟩]),
             ("users", [⟨"id", "UInt64"⟩, ⟨"name", "String"⟩])]).schemas) (tableLine p)) ∧
     TextContains (nlqResponseText "how many users signed up last week?"
        (DatabaseInfo.mk "analytics" ["events", "users"]
          [("events", [⟨"id", "UInt64"⟩, ⟨"ts", "DateTime"⟩]),
           ("users", [⟨"id", "UInt64"⟩, ⟨"name", "String"⟩])]).schemas)
        "You can execute specific SQL queries using the \"execute-sql\" tool.") :=
  ⟨rfl, naturalLanguageQuery_response sampleConfig sampleBackend
    "how many users signed up last week?" _ rfl⟩

end ClickHouseMCP
